import Mathlib

/-!
Shallow embedding of the stepper-driver core
(src/src/Repetier/src/drivers/stepper.h) of the Repetier firmware.

Effectful C++ methods are modelled as Lean functions that return their
result together with a trace of the externally observable events they
perform: digital-output pulses, endstop polls, chip register reads and
writes, diagnostic prints and busy-wait polls.  Machine integers are
modelled as Nat; the only place where wrap-around matters is the
uint16_t loop counter of the WAIT_UNTIL macro, modelled with % 65536,
and the uint32_t register values, where foreign writes are reduced
% 2^32.
-/

set_option autoImplicit false

/-- The six TMC2130 registers tracked by the homing backup record. -/
inductive RegName where
  | GCONF
  | CHOPCONF
  | COOLCONF
  | PWMCONF
  | TCOOLTHRS
  | TPWMTHRS
  deriving DecidableEq

/-- Externally observable events performed by the driver code. -/
inductive Ev where
  /-- Com::printF / Com::printFLN with a plain message. -/
  | printMsg (s : String)
  /-- Com::printFLN with a label and a value. -/
  | printVal (s : String) (v : Nat)
  /-- stepCls::on() — one step pulse edge. -/
  | stepOn
  /-- stepCls::off(). -/
  | stepOff
  /-- dirCls::set(d). -/
  | dirSet (d : Bool)
  /-- enableCls::on(). -/
  | enableOn
  /-- enableCls::off(). -/
  | enableOff
  /-- maxEndstop->update() returning r. -/
  | updateMax (r : Bool)
  /-- minEndstop->update() returning r. -/
  | updateMin (r : Bool)
  /-- driver.begin(). -/
  | chipBegin
  /-- driver.test_connection() returning r. -/
  | testConn (r : Nat)
  /-- one poll of driver.stst() returning r. -/
  | pollStst (r : Bool)
  /-- HAL::delayMicroseconds(n). -/
  | delayMicros (n : Nat)
  /-- driver.I_scale_analog(b). -/
  | wIScaleAnalog (b : Bool)
  /-- driver.interpolate(b). -/
  | wInterpolate (b : Bool)
  /-- driver.internal_Rsense(b). -/
  | wInternalRsense (b : Bool)
  /-- driver.sgt(v). -/
  | wSgt (v : Int)
  /-- driver.diag1_stall(b). -/
  | wDiag1Stall (b : Bool)
  /-- driver.microsteps(n). -/
  | wMicrosteps (n : Nat)
  /-- driver.rms_current(n). -/
  | wRmsCurrent (n : Nat)
  /-- write of one of the six tracked registers. -/
  | wReg (r : RegName) (v : Nat)
  /-- read of one of the six tracked registers returning v. -/
  | rReg (r : RegName) (v : Nat)
  deriving DecidableEq

/-- Does the event emit a step pulse (stepCls::on())? -/
def isStepOn : Ev → Bool
  | Ev.stepOn => true
  | _ => false

/-- Does the event poll the max endstop? -/
def isUpdateMax : Ev → Bool
  | Ev.updateMax _ => true
  | _ => false

/-- Does the event poll the min endstop? -/
def isUpdateMin : Ev → Bool
  | Ev.updateMin _ => true
  | _ => false

/-- Does the event poll either endstop? -/
def isUpdate : Ev → Bool
  | Ev.updateMax _ => true
  | Ev.updateMin _ => true
  | _ => false

/-- Does the event write any chip register (configuration or tracked)? -/
def isRegWrite : Ev → Bool
  | Ev.wIScaleAnalog _ => true
  | Ev.wInterpolate _ => true
  | Ev.wInternalRsense _ => true
  | Ev.wSgt _ => true
  | Ev.wDiag1Stall _ => true
  | Ev.wMicrosteps _ => true
  | Ev.wRmsCurrent _ => true
  | Ev.wReg _ _ => true
  | _ => false

/-- Does the event poll the standstill predicate? -/
def isPollStst : Ev → Bool
  | Ev.pollStst _ => true
  | _ => false

/-- Does the event run the connectivity test? -/
def isTestConn : Ev → Bool
  | Ev.testConn _ => true
  | _ => false

/-- Does the event assert the enable output (enableCls::on())? -/
def isEnableOn : Ev → Bool
  | Ev.enableOn => true
  | _ => false

/-- Does the event deassert the enable output (enableCls::off())? -/
def isEnableOff : Ev → Bool
  | Ev.enableOff => true
  | _ => false

/-- The mutable state of StepperDriverBase that the modelled methods
touch: the stored direction flag (true = toward max). -/
structure DriverState where
  direction : Bool
  deriving DecidableEq

/-- One endstop environment: the values update() would report for the
max and the min endstop at this step decision. -/
structure EndstopEnv where
  maxTrig : Bool
  minTrig : Bool
  deriving DecidableEq

namespace SimpleStepperDriver

/-- SimpleStepperDriver::stepCond.  Consults the endstop selected by the
stored direction; if it is not triggered, emits stepCls::on() and
returns false, otherwise returns true with no pulse. -/
def stepCond (s : DriverState) (es : EndstopEnv) : Bool × List Ev :=
  if s.direction then
    if !es.maxTrig then
      (false, [Ev.updateMax es.maxTrig, Ev.stepOn])
    else
      (true, [Ev.updateMax es.maxTrig])
  else
    if !es.minTrig then
      (false, [Ev.updateMin es.minTrig, Ev.stepOn])
    else
      (true, [Ev.updateMin es.minTrig])

/-- SimpleStepperDriver::dir — dirCls::set(d); direction = d. -/
def dir (d : Bool) (s : DriverState) : DriverState × List Ev :=
  ({ s with direction := d }, [Ev.dirSet d])

end SimpleStepperDriver

namespace TMC2130StepperDriver

/-- TMC2130StepperDriver::stepCond — same endstop-gated step decision
as the simple driver. -/
def stepCond (s : DriverState) (es : EndstopEnv) : Bool × List Ev :=
  if s.direction then
    if !es.maxTrig then
      (false, [Ev.updateMax es.maxTrig, Ev.stepOn])
    else
      (true, [Ev.updateMax es.maxTrig])
  else
    if !es.minTrig then
      (false, [Ev.updateMin es.minTrig, Ev.stepOn])
    else
      (true, [Ev.updateMin es.minTrig])

/-- TMC2130StepperDriver::dir — dirCls::set(d); direction = d. -/
def dir (d : Bool) (s : DriverState) : DriverState × List Ev :=
  ({ s with direction := d }, [Ev.dirSet d])

end TMC2130StepperDriver

/-- C1: for both driver variants and every endstop state, with
direction = true, stepCond() returns true and emits no step pulse when
the max endstop reports triggered, and returns false emitting exactly
one stepCls::on() when it does not; with direction = false the same
holds for the min endstop. -/
theorem C1_stepCond_endstop_gate (s : DriverState) (es : EndstopEnv) :
    ((SimpleStepperDriver.stepCond s es).1 = (if s.direction then es.maxTrig else es.minTrig)
      ∧ ((SimpleStepperDriver.stepCond s es).2.countP isStepOn
          = if (if s.direction then es.maxTrig else es.minTrig) then 0 else 1))
    ∧ ((TMC2130StepperDriver.stepCond s es).1 = (if s.direction then es.maxTrig else es.minTrig)
      ∧ ((TMC2130StepperDriver.stepCond s es).2.countP isStepOn
          = if (if s.direction then es.maxTrig else es.minTrig) then 0 else 1)) := by
  rcases s with ⟨d⟩
  rcases es with ⟨mx, mn⟩
  cases d <;> cases mx <;> cases mn <;> decide

/-- C6: for both driver variants, after dir(d) the stored direction flag
equals d, and the next stepCond() polls exactly the endstop selected by
d (the max endstop when d is true, the min endstop when d is false) and
never the opposite one, whatever the previous state was. -/
theorem C6_dir_selects_endstop (s : DriverState) (d : Bool) (es : EndstopEnv) :
    (((SimpleStepperDriver.dir d s).1.direction = d)
      ∧ ((SimpleStepperDriver.stepCond (SimpleStepperDriver.dir d s).1 es).2.countP isUpdateMax
          = if d then 1 else 0)
      ∧ ((SimpleStepperDriver.stepCond (SimpleStepperDriver.dir d s).1 es).2.countP isUpdateMin
          = if d then 0 else 1))
    ∧ (((TMC2130StepperDriver.dir d s).1.direction = d)
      ∧ ((TMC2130StepperDriver.stepCond (TMC2130StepperDriver.dir d s).1 es).2.countP isUpdateMax
          = if d then 1 else 0)
      ∧ ((TMC2130StepperDriver.stepCond (TMC2130StepperDriver.dir d s).1 es).2.countP isUpdateMin
          = if d then 0 else 1)) := by
  rcases s with ⟨d0⟩
  rcases es with ⟨mx, mn⟩
  cases d <;> cases d0 <;> cases mx <;> cases mn <;> decide

/-- C8: for both driver variants, every stepCond() call polls an endstop
update() exactly once in total: the endstop selected by the current
direction exactly once, the opposite endstop never. -/
theorem C8_stepCond_polls_once (s : DriverState) (es : EndstopEnv) :
    (((SimpleStepperDriver.stepCond s es).2.countP isUpdate = 1)
      ∧ ((SimpleStepperDriver.stepCond s es).2.countP isUpdateMax = if s.direction then 1 else 0)
      ∧ ((SimpleStepperDriver.stepCond s es).2.countP isUpdateMin = if s.direction then 0 else 1))
    ∧ (((TMC2130StepperDriver.stepCond s es).2.countP isUpdate = 1)
      ∧ ((TMC2130StepperDriver.stepCond s es).2.countP isUpdateMax = if s.direction then 1 else 0)
      ∧ ((TMC2130StepperDriver.stepCond s es).2.countP isUpdateMin = if s.direction then 0 else 1)) := by
  rcases s with ⟨d⟩
  rcases es with ⟨mx, mn⟩
  cases d <;> cases mx <;> cases mn <;> decide

/-! ### The standstill busy-wait primitive

The macro is
  for(uint16_t count = 0; !condition || count < (timeout * 1000 / 100); count++)
      HAL::delayMicroseconds(100);
The loop CONTINUES while !condition || count < budget, so it exits at
the first check where the condition holds AND the uint16_t counter has
reached the budget.  The polled condition is modelled as a function
from the poll index to the value it returns; the loop itself may never
exit, so it is run with explicit fuel (an observation bound): the
result is the exit check index, or none when no exit happened within
fuel further checks. -/

/-- The sampling interval of the standstill wait, in microseconds. -/
def TRINAMIC_WAIT_RESOLUTION_uS : Nat := 100

/-- Exit test of the WAIT_UNTIL loop at check index k (the uint16_t
counter holds k % 65536): the loop leaves iff the condition holds and
the counter is not below the sample budget timeout * 1000 / 100. -/
def WAIT_UNTIL_exit (cond : Nat → Bool) (timeout k : Nat) : Bool :=
  cond k && decide (timeout * 1000 / TRINAMIC_WAIT_RESOLUTION_uS ≤ k % 65536)

/-- Fueled run of the WAIT_UNTIL loop starting at check index k:
returns the index of the exiting check, or none when the loop is still
running after consuming all the fuel. -/
def WAIT_UNTIL_run (cond : Nat → Bool) (timeout : Nat) : Nat → Nat → Option Nat
  | k, 0 => if WAIT_UNTIL_exit cond timeout k then some k else none
  | k, fuel + 1 =>
    if WAIT_UNTIL_exit cond timeout k then some k
    else WAIT_UNTIL_run cond timeout (k + 1) fuel

/-- TRINAMIC_WAIT_FOR_STANDSTILL(timeout) = WAIT_UNTIL(driver.stst(), timeout),
run from counter 0. -/
def TRINAMIC_WAIT_FOR_STANDSTILL (stst : Nat → Bool) (timeout fuel : Nat) : Option Nat :=
  WAIT_UNTIL_run stst timeout 0 fuel

/-- Observable events of a WAIT_UNTIL loop that exits at check index k:
one stst poll per check, one 100 us delay per executed body. -/
def waitEvs (cond : Nat → Bool) : Nat → List Ev
  | 0 => [Ev.pollStst (cond 0)]
  | k + 1 => waitEvs cond k ++ [Ev.delayMicros TRINAMIC_WAIT_RESOLUTION_uS, Ev.pollStst (cond (k + 1))]

lemma WAIT_UNTIL_run_false (timeout : Nat) :
    ∀ fuel k, WAIT_UNTIL_run (fun _ => false) timeout k fuel = none := by
  intro fuel
  induction fuel with
  | zero => intro k; simp [WAIT_UNTIL_run, WAIT_UNTIL_exit]
  | succ n ih => intro k; simp [WAIT_UNTIL_run, WAIT_UNTIL_exit, ih]

lemma countP_waitEvs_zero (p : Ev → Bool) (cond : Nat → Bool) (k : Nat)
    (h1 : ∀ b, p (Ev.pollStst b) = false)
    (h2 : ∀ n, p (Ev.delayMicros n) = false) :
    (waitEvs cond k).countP p = 0 := by
  induction k with
  | zero => simp [waitEvs, List.countP_cons, h1]
  | succ n ih => simp [waitEvs, List.countP_append, List.countP_cons, h1, h2, ih]

/-- C3 is a code bug: the loop guard is backward.  If the standstill
predicate never becomes true, TRINAMIC_WAIT_FOR_STANDSTILL never exits:
for every timeout and every amount of fuel (in particular far beyond
the sample budget timeout * 1000 / 100), the run is still going. -/
theorem C3_wait_never_exits (timeout fuel : Nat) :
    TRINAMIC_WAIT_FOR_STANDSTILL (fun _ => false) timeout fuel = none := by
  simp [TRINAMIC_WAIT_FOR_STANDSTILL, WAIT_UNTIL_run_false]

/-! ### TMC2130 register state and the homing bracket -/

/-- Values of the six tracked uint32 registers: the state of the chip
as far as the homing bracket observes it, and also the layout of the
anonymous backup struct of TMC2130StepperDriver. -/
structure SixRegs where
  GCONF : Nat
  CHOPCONF : Nat
  COOLCONF : Nat
  PWMCONF : Nat
  TCOOLTHRS : Nat
  TPWMTHRS : Nat
  deriving DecidableEq

/-- Write one tracked register on the chip; a foreign value is reduced
to uint32 range. -/
def writeReg (c : SixRegs) : RegName → Nat → SixRegs
  | RegName.GCONF, v => { c with GCONF := v % 2 ^ 32 }
  | RegName.CHOPCONF, v => { c with CHOPCONF := v % 2 ^ 32 }
  | RegName.COOLCONF, v => { c with COOLCONF := v % 2 ^ 32 }
  | RegName.PWMCONF, v => { c with PWMCONF := v % 2 ^ 32 }
  | RegName.TCOOLTHRS, v => { c with TCOOLTHRS := v % 2 ^ 32 }
  | RegName.TPWMTHRS, v => { c with TPWMTHRS := v % 2 ^ 32 }

/-- Combined state of one TMC2130StepperDriver instance and its chip:
the chip registers and the backup record. -/
structure TMCState where
  chip : SixRegs
  backup : SixRegs
  deriving DecidableEq

/-- An arbitrary sequence of register writes applied to the chip (what
a homing routine may do between the two bracket calls). -/
def applyWrites (ws : List (RegName × Nat)) (s : TMCState) : TMCState :=
  { s with chip := ws.foldl (fun c w => writeReg c w.1 w.2) s.chip }

namespace TMC2130StepperDriver

/-- TMC2130StepperDriver::beforeHoming — reads the six registers into
the backup record; performs no write. -/
def beforeHoming (s : TMCState) : TMCState × List Ev :=
  ({ s with backup :=
      { GCONF := s.chip.GCONF
        CHOPCONF := s.chip.CHOPCONF
        COOLCONF := s.chip.COOLCONF
        PWMCONF := s.chip.PWMCONF
        TCOOLTHRS := s.chip.TCOOLTHRS
        TPWMTHRS := s.chip.TPWMTHRS } },
   [Ev.rReg RegName.GCONF s.chip.GCONF,
    Ev.rReg RegName.CHOPCONF s.chip.CHOPCONF,
    Ev.rReg RegName.COOLCONF s.chip.COOLCONF,
    Ev.rReg RegName.PWMCONF s.chip.PWMCONF,
    Ev.rReg RegName.TCOOLTHRS s.chip.TCOOLTHRS,
    Ev.rReg RegName.TPWMTHRS s.chip.TPWMTHRS])

/-- TMC2130StepperDriver::afterHoming — writes the six backed-up values
back to the chip, in the captured field order. -/
def afterHoming (s : TMCState) : TMCState × List Ev :=
  ({ s with chip :=
      { GCONF := s.backup.GCONF
        CHOPCONF := s.backup.CHOPCONF
        COOLCONF := s.backup.COOLCONF
        PWMCONF := s.backup.PWMCONF
        TCOOLTHRS := s.backup.TCOOLTHRS
        TPWMTHRS := s.backup.TPWMTHRS } },
   [Ev.wReg RegName.GCONF s.backup.GCONF,
    Ev.wReg RegName.CHOPCONF s.backup.CHOPCONF,
    Ev.wReg RegName.COOLCONF s.backup.COOLCONF,
    Ev.wReg RegName.PWMCONF s.backup.PWMCONF,
    Ev.wReg RegName.TCOOLTHRS s.backup.TCOOLTHRS,
    Ev.wReg RegName.TPWMTHRS s.backup.TPWMTHRS])

end TMC2130StepperDriver

/-- C2: round-trip law of the homing bracket: for any state of the six
tracked registers, beforeHoming(), then any sequence of register
writes, then afterHoming() leaves the chip registers exactly as they
were. -/
theorem C2_homing_roundtrip (s : TMCState) (ws : List (RegName × Nat)) :
    ((TMC2130StepperDriver.afterHoming
        (applyWrites ws (TMC2130StepperDriver.beforeHoming s).1)).1).chip = s.chip := by
  rcases s with ⟨⟨g, c, co, p, t, tp⟩, b⟩
  simp [TMC2130StepperDriver.beforeHoming, TMC2130StepperDriver.afterHoming, applyWrites]

/-- C10: beforeHoming() only reads the six registers and performs no
register write (the chip state is unchanged); afterHoming() does not
modify the backup record, so a second afterHoming() call performs
exactly the same six writes as the first. -/
theorem C10_homing_frame (s : TMCState) :
    ((TMC2130StepperDriver.beforeHoming s).1.chip = s.chip)
    ∧ ((TMC2130StepperDriver.beforeHoming s).2.countP isRegWrite = 0)
    ∧ ((TMC2130StepperDriver.afterHoming s).1.backup = s.backup)
    ∧ ((TMC2130StepperDriver.afterHoming
          ((TMC2130StepperDriver.afterHoming s).1)).2
        = (TMC2130StepperDriver.afterHoming s).2) := by
  rcases s with ⟨⟨g, c, co, p, t, tp⟩, ⟨bg, bc, bco, bp, bt, btp⟩⟩
  refine ⟨rfl, ?_, rfl, rfl⟩
  simp [TMC2130StepperDriver.beforeHoming, List.countP_cons, isRegWrite]

/-! ### Capability queries and configuration setters -/

namespace StepperDriverBase

/-- StepperDriverBase::implementSetMicrosteps — default: false. -/
def implementSetMicrosteps : Bool := false

/-- StepperDriverBase::implementSetMaxCurrent — default: false. -/
def implementSetMaxCurrent : Bool := false

/-- StepperDriverBase::setMicrosteps — default: empty body, no event. -/
def setMicrosteps (_ : Nat) : List Ev := []

/-- StepperDriverBase::setMotorCurrent — default: empty body, no event. -/
def setMotorCurrent (_ : Nat) : List Ev := []

end StepperDriverBase

namespace SimpleStepperDriver

/-- SimpleStepperDriver does not override implementSetMicrosteps. -/
def implementSetMicrosteps : Bool := StepperDriverBase.implementSetMicrosteps

/-- SimpleStepperDriver does not override implementSetMaxCurrent. -/
def implementSetMaxCurrent : Bool := StepperDriverBase.implementSetMaxCurrent

/-- SimpleStepperDriver does not override setMicrosteps. -/
def setMicrosteps (n : Nat) : List Ev := StepperDriverBase.setMicrosteps n

/-- SimpleStepperDriver does not override setMotorCurrent. -/
def setMotorCurrent (n : Nat) : List Ev := StepperDriverBase.setMotorCurrent n

end SimpleStepperDriver

namespace TMC2130StepperDriver

/-- TMC2130StepperDriver does NOT override implementSetMicrosteps, so
the inherited default applies. -/
def implementSetMicrosteps : Bool := StepperDriverBase.implementSetMicrosteps

/-- TMC2130StepperDriver::implementSetMaxCurrent — overridden: true. -/
def implementSetMaxCurrent : Bool := true

/-- TMC2130StepperDriver::setMicrosteps — standstill wait, then
driver.microsteps(microsteps).  none when the wait never exits within
the given fuel. -/
def setMicrosteps (microsteps : Nat) (stst : Nat → Bool) (fuel : Nat) : Option (List Ev) :=
  match TRINAMIC_WAIT_FOR_STANDSTILL stst 100 fuel with
  | none => none
  | some k => some (waitEvs stst k ++ [Ev.wMicrosteps microsteps])

/-- TMC2130StepperDriver::setMotorCurrent — standstill wait, then
driver.rms_current(current). -/
def setMotorCurrent (current : Nat) (stst : Nat → Bool) (fuel : Nat) : Option (List Ev) :=
  match TRINAMIC_WAIT_FOR_STANDSTILL stst 100 fuel with
  | none => none
  | some k => some (waitEvs stst k ++ [Ev.wRmsCurrent current])

end TMC2130StepperDriver

/-! ### TMC2130 initialization -/

/-- Environment of one init() call: the results of the two
test_connection() calls, the chip version, and the standstill
predicate as a function of the poll index. -/
structure ChipEnv where
  conn1 : Nat
  conn2 : Nat
  version : Nat
  stst : Nat → Bool

/-- Events of init() up to and including the two connectivity tests. -/
def initPre (env : ChipEnv) : List Ev :=
  [Ev.printMsg "TMC2130 initialization...", Ev.enableOff, Ev.chipBegin,
   Ev.testConn env.conn1, Ev.testConn env.conn2]

/-- The five configuration writes of init(), in source order. -/
def configEvs : List Ev :=
  [Ev.wIScaleAnalog true, Ev.wInterpolate false, Ev.wInternalRsense false,
   Ev.wSgt 0, Ev.wDiag1Stall true]

/-- Events of a successful init() whose standstill wait exits at check
index k. -/
def initSuccessTrace (env : ChipEnv) (k : Nat) : List Ev :=
  initPre env ++ [Ev.printVal "chip version " env.version]
    ++ waitEvs env.stst k ++ configEvs ++ [Ev.enableOn]

namespace TMC2130StepperDriver

/-- TMC2130StepperDriver::init.  Prints the banner, deasserts enable,
begins the chip, runs the connectivity test twice discarding the first
result, fails with an SPI error message when the second result is
nonzero; otherwise prints the chip version, waits for standstill,
performs the five configuration writes, asserts enable and returns
true.  none when the standstill wait never exits within the fuel. -/
def init (env : ChipEnv) (fuel : Nat) : Option (Bool × List Ev) :=
  if env.conn2 ≠ 0 then
    some (false, initPre env ++ [Ev.printMsg "SPI error"])
  else
    match TRINAMIC_WAIT_FOR_STANDSTILL env.stst 100 fuel with
    | none => none
    | some k => some (true, initSuccessTrace env k)

end TMC2130StepperDriver

/-- A failing init environment: second connectivity test nonzero. -/
def envFail : ChipEnv := { conn1 := 0, conn2 := 1, version := 0, stst := fun _ => false }

/-- A succeeding init environment: both tests 0, chip always at
standstill. -/
def envOk : ChipEnv := { conn1 := 5, conn2 := 0, version := 17, stst := fun _ => true }

/-- C5: init() runs the connectivity test twice; its result depends
only on the second test value, not the first; it returns false and
prints the SPI error exactly when the second result is nonzero; when
the second result is 0 and the standstill wait exits, it prints the
chip version, performs the configuration sequence, returns true and
leaves enable asserted as its last action. -/
theorem C5_init_behavior (env : ChipEnv) (fuel : Nat) :
    (((TMC2130StepperDriver.init env fuel).map Prod.fst = some false) ↔ env.conn2 ≠ 0)
    ∧ (env.conn2 ≠ 0 →
        TMC2130StepperDriver.init env fuel
          = some (false, initPre env ++ [Ev.printMsg "SPI error"])
        ∧ Ev.printMsg "SPI error" ∈ initPre env ++ [Ev.printMsg "SPI error"])
    ∧ (env.conn2 = 0 → ∀ k, TRINAMIC_WAIT_FOR_STANDSTILL env.stst 100 fuel = some k →
        TMC2130StepperDriver.init env fuel = some (true, initSuccessTrace env k)
        ∧ Ev.printVal "chip version " env.version ∈ initSuccessTrace env k
        ∧ (initSuccessTrace env k).getLast? = some Ev.enableOn)
    ∧ (∀ c, (TMC2130StepperDriver.init env fuel).map Prod.fst
          = (TMC2130StepperDriver.init { env with conn1 := c } fuel).map Prod.fst)
    ∧ ((initPre env ++ [Ev.printMsg "SPI error"]).countP isTestConn = 2)
    ∧ (∀ k, (initSuccessTrace env k).countP isTestConn = 2) := by
  have hconn : ∀ k, (waitEvs env.stst k).countP isTestConn = 0 :=
    fun k => countP_waitEvs_zero isTestConn env.stst k (fun _ => rfl) (fun _ => rfl)
  refine ⟨?_, ?_, ?_, ?_, ?_, ?_⟩
  · by_cases h : env.conn2 = 0
    · simp only [TMC2130StepperDriver.init, h]
      cases hw : TRINAMIC_WAIT_FOR_STANDSTILL env.stst 100 fuel <;> simp [hw, h]
    · simp [TMC2130StepperDriver.init, h]
  · intro h
    simp [TMC2130StepperDriver.init, h]
  · intro h k hw
    refine ⟨by simp [TMC2130StepperDriver.init, h, hw], ?_, ?_⟩
    · simp [initSuccessTrace, initPre]
    · rw [initSuccessTrace, List.getLast?_append_of_ne_nil _ (by simp)]
      rfl
  · intro c
    by_cases h : env.conn2 = 0
    · simp only [TMC2130StepperDriver.init, h]
      cases hw : TRINAMIC_WAIT_FOR_STANDSTILL env.stst 100 fuel <;> simp [hw, h]
    · simp [TMC2130StepperDriver.init, h]
  · simp [initPre, List.countP_cons, List.countP_append, isTestConn]
  · intro k
    simp [initSuccessTrace, initPre, configEvs, List.countP_cons, List.countP_append,
      isTestConn, hconn k]

set_option maxRecDepth 40000 in
/-- C5 witness: the failure and the success branch at concrete inputs. -/
theorem C5_init_behavior_witness :
    ((TMC2130StepperDriver.init envFail 0).map Prod.fst = some false)
    ∧ TMC2130StepperDriver.init envOk 1000 = some (true, initSuccessTrace envOk 1000) := by
  refine ⟨?_, ?_⟩
  · exact ((C5_init_behavior envFail 0).1).mpr (by decide)
  · exact (((C5_init_behavior envOk 1000).2.2.1) rfl 1000 (by decide)).1

/-- C9: when the second connectivity test is nonzero, init() returns
false with the trace that ends at the SPI error message: no register
write, no standstill poll, no delay, enable deasserted once and never
re-asserted. -/
theorem C9_init_fail_frame (env : ChipEnv) (fuel : Nat) (h : env.conn2 ≠ 0) :
    TMC2130StepperDriver.init env fuel
      = some (false, initPre env ++ [Ev.printMsg "SPI error"])
    ∧ ((initPre env ++ [Ev.printMsg "SPI error"]).countP isRegWrite = 0)
    ∧ ((initPre env ++ [Ev.printMsg "SPI error"]).countP isPollStst = 0)
    ∧ ((initPre env ++ [Ev.printMsg "SPI error"]).countP (fun e => e == Ev.delayMicros TRINAMIC_WAIT_RESOLUTION_uS) = 0)
    ∧ ((initPre env ++ [Ev.printMsg "SPI error"]).countP isEnableOn = 0)
    ∧ ((initPre env ++ [Ev.printMsg "SPI error"]).countP isEnableOff = 1) := by
  refine ⟨by simp [TMC2130StepperDriver.init, h], ?_, ?_, ?_, ?_, ?_⟩ <;>
    simp [initPre, List.countP_cons, List.countP_append, isRegWrite, isPollStst,
      isEnableOn, isEnableOff]

/-- C9 witness: the failure frame at a concrete environment. -/
theorem C9_init_fail_frame_witness :
    TMC2130StepperDriver.init envFail 0
      = some (false, initPre envFail ++ [Ev.printMsg "SPI error"]) :=
  (C9_init_fail_frame envFail 0 (by decide)).1

/-- C7: on the TMC2130 variant, setMicrosteps(n) performs the
standstill wait and then exactly one microsteps register write with
value n, setMotorCurrent(raw) performs the wait and then exactly one
rms-current write with value raw, and implementSetMaxCurrent() is
true. -/
theorem C7_tmc_config_setters (n m fuel k : Nat) (stst : Nat → Bool)
    (h : TRINAMIC_WAIT_FOR_STANDSTILL stst 100 fuel = some k) :
    TMC2130StepperDriver.setMicrosteps n stst fuel
      = some (waitEvs stst k ++ [Ev.wMicrosteps n])
    ∧ TMC2130StepperDriver.setMotorCurrent m stst fuel
      = some (waitEvs stst k ++ [Ev.wRmsCurrent m])
    ∧ ((waitEvs stst k).countP isRegWrite = 0)
    ∧ ((waitEvs stst k ++ [Ev.wMicrosteps n]).countP isRegWrite = 1)
    ∧ ((waitEvs stst k ++ [Ev.wRmsCurrent m]).countP isRegWrite = 1)
    ∧ TMC2130StepperDriver.implementSetMaxCurrent = true := by
  have hz := countP_waitEvs_zero isRegWrite stst k (fun _ => rfl) (fun _ => rfl)
  refine ⟨?_, ?_, hz, ?_, ?_, rfl⟩
  · simp [TMC2130StepperDriver.setMicrosteps, h]
  · simp [TMC2130StepperDriver.setMotorCurrent, h]
  · simp [List.countP_append, List.countP_cons, hz, isRegWrite]
  · simp [List.countP_append, List.countP_cons, hz, isRegWrite]

set_option maxRecDepth 40000 in
/-- C7 witness: both setters at concrete inputs with an always-true
standstill predicate, whose wait exits at check 1000. -/
theorem C7_tmc_config_setters_witness :
    TMC2130StepperDriver.setMicrosteps 16 (fun _ => true) 1000
      = some (waitEvs (fun _ => true) 1000 ++ [Ev.wMicrosteps 16])
    ∧ TMC2130StepperDriver.setMotorCurrent 800 (fun _ => true) 1000
      = some (waitEvs (fun _ => true) 1000 ++ [Ev.wRmsCurrent 800])
    ∧ TMC2130StepperDriver.implementSetMaxCurrent = true := by
  have h := C7_tmc_config_setters 16 800 1000 1000 (fun _ => true) (by decide)
  exact ⟨h.1, h.2.1, h.2.2.2.2.2⟩

set_option maxRecDepth 40000 in
/-- C4 fails on the code: TMC2130StepperDriver inherits
implementSetMicrosteps() == false yet its setMicrosteps(16) issues a
microsteps register write, while the simple variant (also query false)
is a true no-op. -/
theorem C4_tmc_setMicrosteps_writes_despite_query_false :
    TMC2130StepperDriver.implementSetMicrosteps = false
    ∧ SimpleStepperDriver.implementSetMicrosteps = false
    ∧ SimpleStepperDriver.setMicrosteps 16 = []
    ∧ TMC2130StepperDriver.setMicrosteps 16 (fun _ => true) 1000
        = some (waitEvs (fun _ => true) 1000 ++ [Ev.wMicrosteps 16])
    ∧ ((waitEvs (fun _ => true) 1000 ++ [Ev.wMicrosteps 16]).countP isRegWrite = 1) := by
  have hz := countP_waitEvs_zero isRegWrite (fun _ => true) 1000 (fun _ => rfl) (fun _ => rfl)
  refine ⟨rfl, rfl, rfl, ?_, ?_⟩
  · have hw : TRINAMIC_WAIT_FOR_STANDSTILL (fun _ => true) 100 1000 = some 1000 := by decide
    simp [TMC2130StepperDriver.setMicrosteps, hw]
  · simp [List.countP_append, List.countP_cons, hz, isRegWrite]
